import Mathlib

/-!
Shallow embedding of the self-checkout session state machine
(`src/core/device_state.py`) and of the device notifier boundary
(`src/core/device_notifier.py`).

Timestamps and confidences are Python floats in the source; they are
modelled as rationals (`Rat`), which keeps every comparison exact and
decidable.  Session ids are produced by `uuid.uuid4()` in the source; the
draw is modelled as an explicit `fresh : String` input of `update_state`
(uuid strings are never empty, hence hypotheses of the form `fresh` is
not `""` where Python truthiness matters).  Log output, ISO time strings
and file writes are side effects outside the pure model and are not
represented.
-/

set_option linter.unusedVariables false

/-- Python truthiness of an `Optional[str]` value: `None` and `""` are
falsy, every other string is truthy. -/
def strOptTruthy : Option String → Bool
  | none => false
  | some s => s != ""

/-- Per-device session record, translated field by field from
`DeviceState.__init__` (`device_state.py` lines 12-23).  Field defaults
mirror the constructor. -/
structure DeviceState where
  id : String
  current_state : String := "idle"
  session_id : Option String := none
  session_start : Option Rat := none
  scan_count : Nat := 0
  last_update : Option Rat := none
  state_history : List (Rat × String) := []
  pending_state : Option String := none
  pending_count : Nat := 0
  pending_timestamps : List Rat := []
deriving DecidableEq

/-- Translation of `DeviceState.reset` (lines 25-34): clears the session
fields, the history and the pending-confirmation fields; `current_state`
is untouched. -/
def DeviceState.reset (device : DeviceState) : DeviceState :=
  { device with
    session_id := none
    session_start := none
    scan_count := 0
    state_history := []
    pending_state := none
    pending_count := 0
    pending_timestamps := [] }

/-- Translation of `DeviceState.add_to_history` (lines 36-41): append the
pair, and when more than 1000 entries accumulate keep only the most
recent 500 (Python slice `[-500:]`). -/
def DeviceState.add_to_history (device : DeviceState) (timestamp : Rat) (state : String) : DeviceState :=
  let h := device.state_history ++ [(timestamp, state)]
  { device with state_history := if h.length > 1000 then h.drop (h.length - 500) else h }

/-- Lifecycle event returned by `update_state`.  The Python code returns a
dict; an empty dict is modelled as `none` at the call sites and a
non-empty one as `some` of this record.  The `details_*` fields model the
keys of the nested `details` dict that the claims refer to (the ISO
`start_time` and `end_time` strings are presentation only and are not
modelled). -/
structure StateEvent where
  device_id : String
  old_state : String
  new_state : String
  timestamp : Rat
  event_type : String
  details_session_id : Option String := none
  details_scan_number : Option Nat := none
  details_end_type : Option String := none
  details_duration_seconds : Option Rat := none
  details_total_scans : Option Nat := none
deriving DecidableEq

/-- Translation of `DeviceStateManager.VALID_TRANSITIONS` (lines 48-54);
`none` models a key that is absent from the dict. -/
def VALID_TRANSITIONS (old_state : String) : Option (List String) :=
  if old_state = "idle" then some ["start"]
  else if old_state = "start" then some ["scan", "idle"]
  else if old_state = "scan" then some ["list", "over", "idle"]
  else if old_state = "list" then some ["scan", "over", "idle"]
  else if old_state = "over" then some ["idle"]
  else none

/-- Translation of `DeviceStateManager.IDLE_CONFIRMATION_COUNT` (line 57). -/
def IDLE_CONFIRMATION_COUNT : Nat := 5

/-- Translation of `DeviceStateManager.CONFIRMATION_TIME_WINDOW` (line 58). -/
def CONFIRMATION_TIME_WINDOW : Rat := 3

/-- Translation of `DeviceStateManager._is_valid_transition` (lines
320-324): an unknown old state, or a new state outside the allowed list,
is invalid. -/
def is_valid_transition (old_state new_state : String) : Bool :=
  match VALID_TRANSITIONS old_state with
  | none => false
  | some allowed => decide (new_state ∈ allowed)

/-- Commit step shared by the two commit sites of `update_state` (lines
112-119 and 151-158): set `current_state`, stamp `last_update`, append to
the history, clear the pending-confirmation fields. -/
def commitTo (device : DeviceState) (detected_state : String) (timestamp : Rat) : DeviceState :=
  let d := { device with current_state := detected_state, last_update := some timestamp }
  let d := d.add_to_history timestamp detected_state
  { d with pending_state := none, pending_count := 0, pending_timestamps := [] }

/-- Result of clearing the pending-confirmation fields (lines 85-87). -/
def clearPending (device : DeviceState) : DeviceState :=
  { device with pending_state := none, pending_count := 0, pending_timestamps := [] }

/-- Pending confirmation (re)started with count 1 anchored at the current
timestamp (lines 124-126 and 140-142). -/
def pendingAnchor (device : DeviceState) (detected_state : String) (timestamp : Rat) : DeviceState :=
  { device with
    pending_state := some detected_state
    pending_count := 1
    pending_timestamps := [timestamp] }

/-- Pending confirmation extended by one observation: increment the count
and append the timestamp (lines 104-105). -/
def pendingExtend (device : DeviceState) (timestamp : Rat) : DeviceState :=
  { device with
    pending_count := device.pending_count + 1
    pending_timestamps := device.pending_timestamps ++ [timestamp] }

/-- Session duration computed on a session-end commit (line 245):
`timestamp - session_start` under Python truthiness of `session_start`
(`None` and `0.0` both give duration `0`). -/
def sessionDuration (device : DeviceState) (timestamp : Rat) : Rat :=
  match device.session_start with
  | some s => if s ≠ 0 then timestamp - s else 0
  | none => 0

/-- Translation of `DeviceStateManager._handle_state_transition` (lines
162-287).  `old_state` and `new_state` are the committed transition,
`fresh` models the `uuid.uuid4()` draw of line 181.  Returns the mutated
device together with the event dict (`none` for the empty dict). -/
def handle_state_transition (device : DeviceState) (old_state new_state : String)
    (timestamp : Rat) (fresh : String) : DeviceState × Option StateEvent :=
  let base : StateEvent :=
    { device_id := device.id, old_state := old_state, new_state := new_state,
      timestamp := timestamp, event_type := "" }
  if new_state = "start" ∧ (old_state = "idle" ∨ (old_state = "list" ∧ ¬ strOptTruthy device.session_id)) then
    let device := { device with session_id := some fresh, session_start := some timestamp, scan_count := 0 }
    (device, some { base with event_type := "session_start", details_session_id := some fresh })
  else if new_state = "scan" ∧ old_state ≠ "scan" then
    let device := { device with scan_count := device.scan_count + 1 }
    (device, some { base with
      event_type := "product_scan"
      details_scan_number := some device.scan_count
      details_session_id := device.session_id })
  else if old_state = "scan" ∧ new_state = "list" then
    (device, some { base with event_type := "view_list" })
  else if old_state = "list" ∧ new_state = "scan" then
    let device := { device with scan_count := device.scan_count + 1 }
    (device, some { base with
      event_type := "product_scan"
      details_scan_number := some device.scan_count
      details_session_id := device.session_id })
  else if (new_state = "over" ∧ (old_state = "scan" ∨ old_state = "list")) ∨
          (new_state = "idle" ∧ (old_state = "start" ∨ old_state = "scan" ∨ old_state = "list")) then
    if strOptTruthy device.session_id then
      let duration : Rat := sessionDuration device timestamp
      let end_type : String := if new_state = "over" then "completed" else "abandoned"
      let ev : StateEvent :=
        { base with
          event_type := "session_end"
          details_session_id := device.session_id
          details_end_type := some end_type
          details_duration_seconds := some duration
          details_total_scans := some device.scan_count }
      (device.reset, some ev)
    else
      (device, none)
  else if old_state = "over" ∧ new_state = "idle" then
    (device, none)
  else
    (device, some { base with event_type := "state_change" })

/-- Translation of the per-device body of `DeviceStateManager.update_state`
(lines 79-160), acting on the device record that the manager looked up or
created.  `confidence` is only interpolated into log messages in the
source and therefore does not occur in the body; `fresh` models the
`uuid.uuid4()` draw used on a `session_start` commit. -/
def update_state (device : DeviceState) (detected_state : String)
    (confidence : Rat) (timestamp : Rat) (fresh : String) : DeviceState × Option StateEvent :=
  if device.current_state = detected_state then
    if strOptTruthy device.pending_state then (clearPending device, none)
    else (device, none)
  else if ¬ is_valid_transition device.current_state detected_state then
    (device, none)
  else if detected_state = "idle" ∧ device.current_state ≠ "over" then
    if device.pending_state = some detected_state then
      let device := pendingExtend device timestamp
      if device.pending_count ≥ IDLE_CONFIRMATION_COUNT then
        if timestamp - device.pending_timestamps.headD 0 ≤ CONFIRMATION_TIME_WINDOW then
          handle_state_transition (commitTo device detected_state timestamp)
            device.current_state detected_state timestamp fresh
        else
          (pendingAnchor device detected_state timestamp, none)
      else
        (device, none)
    else
      (pendingAnchor device detected_state timestamp, none)
  else
    handle_state_transition (commitTo device detected_state timestamp)
      device.current_state detected_state timestamp fresh

/-- Device record freshly created by `update_state` for an unknown device
(lines 75-77, via `DeviceState.__init__`). -/
def init_device (device_id : String) : DeviceState := { id := device_id }

/-- Registry of device records (`DeviceStateManager.devices`, line 61),
modelled as an association list keyed by device id. -/
structure DeviceStateManager where
  devices : List (String × DeviceState) := []

/-- Dict lookup on the device registry. -/
def lookup_device : List (String × DeviceState) → String → Option DeviceState
  | [], _ => none
  | (k, d) :: rest, device_id => if k = device_id then some d else lookup_device rest device_id

/-- Dict store on the device registry: replace the entry for the key or
append a new one. -/
def store_device : List (String × DeviceState) → String → DeviceState → List (String × DeviceState)
  | [], device_id, d => [(device_id, d)]
  | (k, d0) :: rest, device_id, d =>
    if k = device_id then (k, d) :: rest else (k, d0) :: store_device rest device_id d

/-- Manager-level `DeviceStateManager.update_state` (lines 67-160): look
up or lazily create the device record, run the per-device update, store
the result back. -/
def manager_update_state (m : DeviceStateManager) (device_id detected_state : String)
    (confidence timestamp : Rat) (fresh : String) : DeviceStateManager × Option StateEvent :=
  let device := (lookup_device m.devices device_id).getD (init_device device_id)
  let r := update_state device detected_state confidence timestamp fresh
  (⟨store_device m.devices device_id r.fst⟩, r.snd)

/-- Per-device entry of the `device` section of the configuration file, as
read by `DeviceNotifier` (`device_notifier.py` lines 33-43 and 163-174):
only the keys the notifier consults are modelled, each `Option` because
`dict.get` yields `None` for a missing key. -/
structure DeviceConfig where
  hostip : Option String := none
  target_device_id : Option String := none
deriving DecidableEq

/-- Configuration visible to `DeviceNotifier`: the `device` map, modelled
as an association list keyed by device id. -/
structure NotifierConfig where
  device : List (String × DeviceConfig) := []

/-- Dict lookup on the `device` section of the configuration. -/
def lookup_device_config : List (String × DeviceConfig) → String → Option DeviceConfig
  | [], _ => none
  | (k, c) :: rest, device_id => if k = device_id then some c else lookup_device_config rest device_id

/-- Outcome of the `requests.post` call inside `notify_device`: either a
completed HTTP response with a status code and body text, or one of the
exception classes the source catches (`Timeout`, `ConnectionError`, any
other exception).  The outcome is an input of the model because the
network is external. -/
inductive PostOutcome where
  | response (status : Nat) (text : String)
  | timeout
  | connectionError
  | otherError (msg : String)
deriving DecidableEq

/-- Translation of `DeviceNotifier.notify_device` (`device_notifier.py`
lines 19-90).  The function never raises in the source (every exception
path is caught and returns `False`); correspondingly it is a total
function into `Bool` here.  A missing device entry or a missing or empty
`hostip` (Python truthiness of `if not host_ip`) short-circuits to
`False` before any request is made; a completed response yields `True`
exactly for status 200; every caught exception yields `False`.  Log
writes and `print` calls are side effects outside the model. -/
def notify_device (config : NotifierConfig) (device_id : String) (code : Nat)
    (message : String) (outcome : PostOutcome) : Bool :=
  match lookup_device_config config.device device_id with
  | none => false
  | some device_config =>
    match device_config.hostip with
    | none => false
    | some host_ip =>
      if host_ip = "" then false
      else
        match outcome with
        | .response status _ => status == 200
        | .timeout => false
        | .connectionError => false
        | .otherError _ => false

/-- Repeated `update_state` calls with a fixed detected label, threading
the device record from call to call; returns the final device together
with the list of per-call results.  Used to state the idempotence
property of the specification. -/
def run_updates (device : DeviceState) (detected_state : String) (confidence : Rat)
    (fresh : String) : List Rat → DeviceState × List (Option StateEvent)
  | [] => (device, [])
  | t :: ts =>
    let r := update_state device detected_state confidence t fresh
    let rest := run_updates r.fst detected_state confidence fresh ts
    (rest.fst, r.snd :: rest.snd)

/-- Session-activity invariant of one device record: the session id is
present exactly in the in-session states `start`, `scan`, `list`, and is
never the empty string (`uuid.uuid4()` never yields an empty string, and
an empty string would be falsy where the source tests `if
device.session_id`). -/
def sessionInv (d : DeviceState) : Prop :=
  (d.session_id.isSome = true ↔
    (d.current_state = "start" ∨ d.current_state = "scan" ∨ d.current_state = "list"))
  ∧ d.session_id ≠ some ""

/-- Session-activity invariant over every device record of the manager
registry. -/
def managerInv (m : DeviceStateManager) : Prop := ∀ p ∈ m.devices, sessionInv p.2

/-- Device in state `scan` with an open pending confirmation; exhibits the
pending-clearing side effect of a same-state detection. -/
def pendingScanDevice : DeviceState :=
  { id := "dev"
    current_state := "scan"
    session_id := some "sess"
    pending_state := some "idle"
    pending_count := 2
    pending_timestamps := [1, 2] }

/-- Device in state `list` with no active session; exhibits the rejection
of a `list → start` detection. -/
def listDevice : DeviceState :=
  { id := "dev", current_state := "list" }

/-- Device in state `scan` with no session id; exhibits the duplicate
end-signal guard on a `scan → over` commit. -/
def overGuardDevice : DeviceState :=
  { id := "dev", current_state := "scan", scan_count := 3 }

/-- Device in state `scan` with no session id and a pending idle
confirmation one observation short of the threshold; exhibits the
duplicate end-signal guard on a confirmed idle commit. -/
def idleGuardDevice : DeviceState :=
  { id := "dev"
    current_state := "scan"
    pending_state := some "idle"
    pending_count := 4
    pending_timestamps := [1, 2, 2, 3] }

/-- Device in state `scan` with an active session and no open pending
confirmation; concrete instance for the debounce scenarios. -/
def scanSessionDevice : DeviceState :=
  { id := "dev", current_state := "scan", session_id := some "sess", session_start := some 0 }

/-- Fresh device (state `idle`, no session); concrete instance for the
full-lifecycle scenario. -/
def freshDevice : DeviceState :=
  { id := "dev" }

/-- Chained update results of the concrete debounce-commit run: five
idle detections on `scanSessionDevice` at timestamps 0, 1, 1, 2, 3. -/
def c1r1 : DeviceState × Option StateEvent := update_state scanSessionDevice "idle" 1 0 "f"

def c1r2 : DeviceState × Option StateEvent := update_state c1r1.fst "idle" 1 1 "f"

def c1r3 : DeviceState × Option StateEvent := update_state c1r2.fst "idle" 1 1 "f"

def c1r4 : DeviceState × Option StateEvent := update_state c1r3.fst "idle" 1 2 "f"

def c1r5 : DeviceState × Option StateEvent := update_state c1r4.fst "idle" 1 3 "f"

/-- Chained update results of the concrete window-reset run: five idle
detections on `scanSessionDevice` at timestamps 0, 1, 2, 3, 4. -/
def c2r1 : DeviceState × Option StateEvent := update_state scanSessionDevice "idle" 1 0 "f"

def c2r2 : DeviceState × Option StateEvent := update_state c2r1.fst "idle" 1 1 "f"

def c2r3 : DeviceState × Option StateEvent := update_state c2r2.fst "idle" 1 2 "f"

def c2r4 : DeviceState × Option StateEvent := update_state c2r3.fst "idle" 1 3 "f"

def c2r5 : DeviceState × Option StateEvent := update_state c2r4.fst "idle" 1 4 "f"

/-- Chained update results of the concrete full-lifecycle run on a fresh
device at timestamps 1 to 6. -/
def c3r1 : DeviceState × Option StateEvent := update_state freshDevice "start" 1 1 "sid-1"

def c3r2 : DeviceState × Option StateEvent := update_state c3r1.fst "scan" 1 2 "sid-2"

def c3r3 : DeviceState × Option StateEvent := update_state c3r2.fst "list" 1 3 "sid-3"

def c3r4 : DeviceState × Option StateEvent := update_state c3r3.fst "scan" 1 4 "sid-4"

def c3r5 : DeviceState × Option StateEvent := update_state c3r4.fst "over" 1 5 "sid-5"

def c3r6 : DeviceState × Option StateEvent := update_state c3r5.fst "idle" 1 6 "sid-6"

/-! ### Evaluation lemmas for the individual branches of the state machine -/

/-- Inversion of the transition table: a pair accepted by
`is_valid_transition` is one of the eight entries of
`VALID_TRANSITIONS`. -/
theorem valid_inversion (a b : String) (h : is_valid_transition a b = true) :
    (a = "idle" ∧ b = "start") ∨
    (a = "start" ∧ (b = "scan" ∨ b = "idle")) ∨
    (a = "scan" ∧ (b = "list" ∨ b = "over" ∨ b = "idle")) ∨
    (a = "list" ∧ (b = "scan" ∨ b = "over" ∨ b = "idle")) ∨
    (a = "over" ∧ b = "idle") := by
  unfold is_valid_transition VALID_TRANSITIONS at h
  split_ifs at h <;> simp_all

/-- A detected state equal to the current state returns no event and at
most clears the pending-confirmation fields. -/
theorem update_same (d : DeviceState) (c t : Rat) (f : String) :
    update_state d d.current_state c t f =
      ((if strOptTruthy d.pending_state then clearPending d else d), none) := by
  unfold update_state
  rw [if_pos rfl]
  by_cases h : strOptTruthy d.pending_state <;> simp [h]

/-- A transition pair rejected by the table returns no event and leaves
the device untouched. -/
theorem update_invalid (d : DeviceState) (det : String) (c t : Rat) (f : String)
    (hne : d.current_state ≠ det) (hv : is_valid_transition d.current_state det = false) :
    update_state d det c t f = (d, none) := by
  unfold update_state
  rw [if_neg (fun hh => hne hh)]
  rw [if_pos]
  simp [hv]

/-- A valid transition that does not need idle confirmation commits
immediately and hands over to `handle_state_transition`. -/
theorem update_commit_direct (d : DeviceState) (det : String) (c t : Rat) (f : String)
    (hne : d.current_state ≠ det) (hv : is_valid_transition d.current_state det = true)
    (hnc : ¬ (det = "idle" ∧ d.current_state ≠ "over")) :
    update_state d det c t f =
      handle_state_transition (commitTo d det t) d.current_state det t f := by
  unfold update_state
  rw [if_neg (fun hh => hne hh), if_neg (by simp [hv]), if_neg hnc]

/-- First idle observation from a state that needs confirmation: open a
new pending confirmation anchored at the current timestamp, no event. -/
theorem update_idle_newPending (d : DeviceState) (c t : Rat) (f : String)
    (hne : d.current_state ≠ "idle") (hv : is_valid_transition d.current_state "idle" = true)
    (hno : d.current_state ≠ "over") (hp : d.pending_state ≠ some "idle") :
    update_state d "idle" c t f = (pendingAnchor d "idle" t, none) := by
  unfold update_state
  rw [if_neg (fun hh => hne hh), if_neg (by simp [hv]), if_pos ⟨rfl, hno⟩, if_neg hp]

/-- Further idle observation while the confirmation count has not yet
reached `IDLE_CONFIRMATION_COUNT`: increment the count, record the
timestamp, no event. -/
theorem update_idle_accum (d : DeviceState) (c t : Rat) (f : String)
    (hne : d.current_state ≠ "idle") (hv : is_valid_transition d.current_state "idle" = true)
    (hno : d.current_state ≠ "over") (hp : d.pending_state = some "idle")
    (hc : d.pending_count + 1 < IDLE_CONFIRMATION_COUNT) :
    update_state d "idle" c t f = (pendingExtend d t, none) := by
  unfold update_state
  rw [if_neg (fun hh => hne hh), if_neg (by simp [hv]), if_pos ⟨rfl, hno⟩, if_pos hp,
    if_neg (show ¬ (pendingExtend d t).pending_count ≥ IDLE_CONFIRMATION_COUNT from by
      simp only [pendingExtend]
      omega)]

/-- Fifth idle observation inside the confirmation window: commit the
transition and hand over to `handle_state_transition`. -/
theorem update_idle_commit (d : DeviceState) (c t : Rat) (f : String)
    (hne : d.current_state ≠ "idle") (hv : is_valid_transition d.current_state "idle" = true)
    (hno : d.current_state ≠ "over") (hp : d.pending_state = some "idle")
    (hc : d.pending_count + 1 ≥ IDLE_CONFIRMATION_COUNT)
    (hw : t - (d.pending_timestamps ++ [t]).headD 0 ≤ CONFIRMATION_TIME_WINDOW) :
    update_state d "idle" c t f =
      handle_state_transition (commitTo (pendingExtend d t) "idle" t)
        d.current_state "idle" t f := by
  unfold update_state
  rw [if_neg (fun hh => hne hh), if_neg (by simp [hv]), if_pos ⟨rfl, hno⟩, if_pos hp,
    if_pos (show (pendingExtend d t).pending_count ≥ IDLE_CONFIRMATION_COUNT from hc),
    if_pos (show t - (pendingExtend d t).pending_timestamps.headD 0 ≤ CONFIRMATION_TIME_WINDOW
      from hw)]
  rfl

/-- Fifth idle observation outside the confirmation window: the pending
confirmation restarts with count 1 anchored at the current timestamp,
no event. -/
theorem update_idle_resetWindow (d : DeviceState) (c t : Rat) (f : String)
    (hne : d.current_state ≠ "idle") (hv : is_valid_transition d.current_state "idle" = true)
    (hno : d.current_state ≠ "over") (hp : d.pending_state = some "idle")
    (hc : d.pending_count + 1 ≥ IDLE_CONFIRMATION_COUNT)
    (hw : ¬ (t - (d.pending_timestamps ++ [t]).headD 0 ≤ CONFIRMATION_TIME_WINDOW)) :
    update_state d "idle" c t f = (pendingAnchor (pendingExtend d t) "idle" t, none) := by
  unfold update_state
  rw [if_neg (fun hh => hne hh), if_neg (by simp [hv]), if_pos ⟨rfl, hno⟩, if_pos hp,
    if_pos (show (pendingExtend d t).pending_count ≥ IDLE_CONFIRMATION_COUNT from hc),
    if_neg (show ¬ t - (pendingExtend d t).pending_timestamps.headD 0 ≤ CONFIRMATION_TIME_WINDOW
      from hw)]

/-- The event classifier never changes `current_state`. -/
theorem handler_current (d : DeviceState) (o n : String) (t : Rat) (f : String) :
    (handle_state_transition d o n t f).fst.current_state = d.current_state := by
  unfold handle_state_transition
  repeat' split
  all_goals simp [DeviceState.reset]

/-- Commit of `idle → start`: a new session starts, keyed by the fresh
session id. -/
theorem handler_idle_start (d : DeviceState) (t : Rat) (f : String) :
    handle_state_transition d "idle" "start" t f =
      ({ d with session_id := some f, session_start := some t, scan_count := 0 },
       some { device_id := d.id, old_state := "idle", new_state := "start", timestamp := t,
              event_type := "session_start", details_session_id := some f }) := by
  simp [handle_state_transition]

/-- Commit of any transition into `scan` from a different state: the scan
counter is incremented and a `product_scan` event is produced. -/
theorem handler_to_scan (d : DeviceState) (o : String) (t : Rat) (f : String)
    (ho : o ≠ "scan") :
    handle_state_transition d o "scan" t f =
      ({ d with scan_count := d.scan_count + 1 },
       some { device_id := d.id, old_state := o, new_state := "scan", timestamp := t,
              event_type := "product_scan", details_scan_number := some (d.scan_count + 1),
              details_session_id := d.session_id }) := by
  simp [handle_state_transition, ho]

/-- Commit of `scan → list`: a `view_list` event, no device mutation. -/
theorem handler_scan_list (d : DeviceState) (t : Rat) (f : String) :
    handle_state_transition d "scan" "list" t f =
      (d, some { device_id := d.id, old_state := "scan", new_state := "list", timestamp := t,
                 event_type := "view_list" }) := by
  simp [handle_state_transition]

/-- Commit of `scan/list → over` with a truthy session id: `session_end`
with end type `completed`, followed by a session reset. -/
theorem handler_over_end (d : DeviceState) (o : String) (t : Rat) (f s : String)
    (ho : o = "scan" ∨ o = "list") (hsid : d.session_id = some s) (hs : s ≠ "") :
    handle_state_transition d o "over" t f =
      (d.reset,
       some { device_id := d.id, old_state := o, new_state := "over", timestamp := t,
              event_type := "session_end", details_session_id := some s,
              details_end_type := some "completed",
              details_duration_seconds := some (sessionDuration d t),
              details_total_scans := some d.scan_count }) := by
  rcases ho with ho | ho <;> subst ho <;>
    simp [handle_state_transition, hsid, strOptTruthy, hs]

/-- Commit of a confirmed `start/scan/list → idle` with a truthy session
id: `session_end` with end type `abandoned`, followed by a session
reset. -/
theorem handler_idle_end (d : DeviceState) (o : String) (t : Rat) (f s : String)
    (ho : o = "start" ∨ o = "scan" ∨ o = "list") (hsid : d.session_id = some s) (hs : s ≠ "") :
    handle_state_transition d o "idle" t f =
      (d.reset,
       some { device_id := d.id, old_state := o, new_state := "idle", timestamp := t,
              event_type := "session_end", details_session_id := some s,
              details_end_type := some "abandoned",
              details_duration_seconds := some (sessionDuration d t),
              details_total_scans := some d.scan_count }) := by
  rcases ho with ho | ho | ho <;> subst ho <;>
    simp [handle_state_transition, hsid, strOptTruthy, hs]

/-- Commit of `scan/list → over` without a truthy session id: the guard
against duplicate end signals returns no event and performs no session
reset. -/
theorem handler_over_end_nosid (d : DeviceState) (o : String) (t : Rat) (f : String)
    (ho : o = "scan" ∨ o = "list") (hsid : d.session_id = none) :
    handle_state_transition d o "over" t f = (d, none) := by
  rcases ho with ho | ho <;> subst ho <;>
    simp [handle_state_transition, hsid, strOptTruthy]

/-- Commit of a confirmed `start/scan/list → idle` without a truthy
session id: no event, no session reset. -/
theorem handler_idle_end_nosid (d : DeviceState) (o : String) (t : Rat) (f : String)
    (ho : o = "start" ∨ o = "scan" ∨ o = "list") (hsid : d.session_id = none) :
    handle_state_transition d o "idle" t f = (d, none) := by
  rcases ho with ho | ho | ho <;> subst ho <;>
    simp [handle_state_transition, hsid, strOptTruthy]

/-- Commit of `over → idle`: the pure cooldown transition produces no
event and no mutation beyond the commit itself. -/
theorem handler_over_idle (d : DeviceState) (t : Rat) (f : String) :
    handle_state_transition d "over" "idle" t f = (d, none) := by
  simp [handle_state_transition]

/-- Commit sets `current_state` to the detected state. -/
@[simp] theorem commitTo_current (d : DeviceState) (det : String) (t : Rat) :
    (commitTo d det t).current_state = det := by
  simp [commitTo, DeviceState.add_to_history]

/-- Commit leaves the session id untouched. -/
@[simp] theorem commitTo_session_id (d : DeviceState) (det : String) (t : Rat) :
    (commitTo d det t).session_id = d.session_id := by
  simp [commitTo, DeviceState.add_to_history]

/-- Commit leaves the session start untouched. -/
@[simp] theorem commitTo_session_start (d : DeviceState) (det : String) (t : Rat) :
    (commitTo d det t).session_start = d.session_start := by
  simp [commitTo, DeviceState.add_to_history]

/-- Commit leaves the scan counter untouched. -/
@[simp] theorem commitTo_scan_count (d : DeviceState) (det : String) (t : Rat) :
    (commitTo d det t).scan_count = d.scan_count := by
  simp [commitTo, DeviceState.add_to_history]

/-- Commit clears the pending candidate. -/
@[simp] theorem commitTo_pending_state (d : DeviceState) (det : String) (t : Rat) :
    (commitTo d det t).pending_state = none := by
  simp [commitTo, DeviceState.add_to_history]

/-- Commit without history overflow: the explicit record form. -/
theorem commitTo_eq_of_small (d : DeviceState) (det : String) (t : Rat)
    (hl : d.state_history.length ≤ 999) :
    commitTo d det t =
      { d with
        current_state := det
        last_update := some t
        state_history := d.state_history ++ [(t, det)]
        pending_state := none
        pending_count := 0
        pending_timestamps := [] } := by
  unfold commitTo DeviceState.add_to_history
  have h1001 : ¬ 1000 < d.state_history.length + 1 := by omega
  simp [List.length_append, h1001]

/-- Session reset leaves `current_state` untouched. -/
@[simp] theorem reset_current (d : DeviceState) :
    d.reset.current_state = d.current_state := by
  simp [DeviceState.reset]

/-- Clearing the pending confirmation leaves `current_state` untouched. -/
@[simp] theorem clearPending_current (d : DeviceState) :
    (clearPending d).current_state = d.current_state := by
  simp [clearPending]

/-- Same-state detection, stated for an arbitrary detected label equal to
the current state. -/
theorem update_same' (d : DeviceState) (det : String) (c t : Rat) (f : String)
    (h : d.current_state = det) :
    update_state d det c t f =
      ((if strOptTruthy d.pending_state then clearPending d else d), none) := by
  subst h
  exact update_same d c t f

/-- Whenever a call returns an event, the commit has happened: the
resulting `current_state` is the detected state. -/
theorem update_snd_some_current (d : DeviceState) (det : String) (c t : Rat) (f : String)
    (h : (update_state d det c t f).snd.isSome = true) :
    (update_state d det c t f).fst.current_state = det := by
  by_cases h1 : d.current_state = det
  · rw [update_same' d det c t f h1] at h
    simp at h
  · by_cases h2 : is_valid_transition d.current_state det = true
    · by_cases h3 : det = "idle" ∧ d.current_state ≠ "over"
      · obtain ⟨h3a, h3b⟩ := h3
        subst h3a
        by_cases h4 : d.pending_state = some "idle"
        · by_cases h5 : d.pending_count + 1 ≥ IDLE_CONFIRMATION_COUNT
          · by_cases h6 : t - (d.pending_timestamps ++ [t]).headD 0 ≤ CONFIRMATION_TIME_WINDOW
            · rw [update_idle_commit d c t f h1 h2 h3b h4 h5 h6]
              rw [handler_current, commitTo_current]
            · rw [update_idle_resetWindow d c t f h1 h2 h3b h4 h5 h6] at h
              simp at h
          · rw [update_idle_accum d c t f h1 h2 h3b h4 (by omega)] at h
            simp at h
        · rw [update_idle_newPending d c t f h1 h2 h3b h4] at h
          simp at h
      · rw [update_commit_direct d det c t f h1 h2 h3]
        rw [handler_current, commitTo_current]
    · rw [update_invalid d det c t f h1 (by simpa using h2)] at h
      simp at h

/-- From a device already in the detected state, a run of identical
detections yields no event at all. -/
theorem run_events_zero (det : String) (c : Rat) (f : String) :
    ∀ (ts : List Rat) (d : DeviceState), d.current_state = det →
      ((run_updates d det c f ts).snd.countP Option.isSome = 0) := by
  intro ts
  induction ts with
  | nil => intro d h; simp [run_updates]
  | cons t ts ih =>
    intro d h
    simp only [run_updates]
    rw [update_same' d det c t f h]
    have hcur : (if strOptTruthy d.pending_state then clearPending d else d).current_state = det := by
      split
      · rw [clearPending_current]; exact h
      · exact h
    simp [List.countP_cons, ih _ hcur]

/-- A run of identical detections produces at most one event, however long
the run. -/
theorem run_events_le_one (det : String) (c : Rat) (f : String) :
    ∀ (ts : List Rat) (d : DeviceState),
      ((run_updates d det c f ts).snd.countP Option.isSome ≤ 1) := by
  intro ts
  induction ts with
  | nil => intro d; simp [run_updates]
  | cons t ts ih =>
    intro d
    simp only [run_updates]
    rcases hev : (update_state d det c t f).snd with _ | ev
    · simpa [List.countP_cons, hev] using ih (update_state d det c t f).fst
    · have hcur : (update_state d det c t f).fst.current_state = det :=
        update_snd_some_current d det c t f (by rw [hev]; rfl)
      have hz := run_events_zero det c f ts _ hcur
      simp [List.countP_cons, hev, hz]

/-! ### Claim theorems -/

/-- C10: the result of `update_state` is independent of the `confidence`
argument: two calls differing only in confidence return the same event
and leave the device record in identical states, because confidence is
only interpolated into log text in the source and never influences the
transition, debounce, or event logic. -/
theorem c10_confidence_independence (d : DeviceState) (det : String) (t : Rat)
    (f : String) (c c' : Rat) :
    update_state d det c t f = update_state d det c' t f := rfl

/-- C9: `notify_device` is a total boolean function (the source catches
every exception path), and it returns `true` exactly when the device is
configured with a truthy host address and the HTTP POST completes with
status 200; a missing device entry, a missing or empty host, a timeout,
a connection error, a non-200 status or any other exception yields
`false`. -/
theorem c9_notify_device_result (cfg : NotifierConfig) (device_id : String) (code : Nat)
    (message : String) (outcome : PostOutcome) :
    notify_device cfg device_id code message outcome = true ↔
      ∃ dc host body, lookup_device_config cfg.device device_id = some dc ∧
        dc.hostip = some host ∧ host ≠ "" ∧ outcome = PostOutcome.response 200 body := by
  cases hl : lookup_device_config cfg.device device_id with
  | none => simp [notify_device, hl]
  | some dc =>
    cases hh : dc.hostip with
    | none => simp [notify_device, hl, hh]
    | some host =>
      by_cases he : host = ""
      · simp [notify_device, hl, hh, he]
      · cases outcome with
        | response status body =>
          simp only [notify_device, hl, hh, he, if_neg he]
          constructor
          · intro hs
            exact ⟨dc, host, body, rfl, hh, he, by simp_all⟩
          · rintro ⟨dc', host', body', hdc, hhost, _, hout⟩
            cases hdc
            rw [hh] at hhost
            cases hhost
            cases hout
            simp
        | timeout => simp [notify_device, hl, hh, he]
        | connectionError => simp [notify_device, hl, hh, he]
        | otherError msg => simp [notify_device, hl, hh, he]

/-- C8: a detection equal to the current state returns no event and
changes nothing but clearing an open pending confirmation; consequently a
run of calls with an unchanged detected label produces at most one event,
and every call after the one that changed state returns no event. -/
theorem c8_idempotence (d : DeviceState) (c t : Rat) (f : String) (det : String)
    (ts : List Rat) :
    (update_state d d.current_state c t f =
      ((if strOptTruthy d.pending_state then clearPending d else d), none)) ∧
    ((run_updates d det c f ts).snd.countP Option.isSome ≤ 1) :=
  ⟨update_same d c t f, run_events_le_one det c f ts d⟩

/-- C4 counterexample: the pair `(scan, scan)` is absent from the
transition table, yet calling `update_state` with it on a device holding
an open pending confirmation clears that confirmation: the device record
is not left unchanged, refuting the claim as stated for same-state
pairs. -/
theorem c4_counterexample :
    is_valid_transition pendingScanDevice.current_state "scan" = false ∧
    (update_state pendingScanDevice "scan" 1 3 "f").snd = none ∧
    (update_state pendingScanDevice "scan" 1 3 "f").fst ≠ pendingScanDevice := by
  decide

/-- C4 (amended): for every pair absent from the allowed-transitions
table in which the detected state differs from the current state,
`update_state` returns no event and leaves the whole device record
unchanged. -/
theorem c4_invalid_transition_frame (d : DeviceState) (det : String) (c t : Rat) (f : String)
    (hne : det ≠ d.current_state)
    (hv : is_valid_transition d.current_state det = false) :
    update_state d det c t f = (d, none) :=
  update_invalid d det c t f (fun h => hne h.symm) hv

/-- C4 witness: a fresh `idle` device rejects an `over` detection with no
event and no change. -/
theorem c4_invalid_transition_frame_witness :
    update_state (init_device "dev") "over" 1 1 "f" = (init_device "dev", none) :=
  c4_invalid_transition_frame (init_device "dev") "over" 1 1 "f" (by decide) (by decide)

/-- C5 counterexample: with current state `list` and no active session, a
`start` detection is rejected by the transition table: no `session_start`
event is emitted, no session id is generated, the record is unchanged —
refuting the claim that this call commits and starts a session. -/
theorem c5_counterexample :
    (update_state listDevice "start" 1 5 "fresh-id").snd = none ∧
    (update_state listDevice "start" 1 5 "fresh-id").fst = listDevice ∧
    is_valid_transition "list" "start" = false := by
  decide

/-- C5 (amended): an `update_state` call with current state `list` and
detected state `start` is rejected as an invalid transition whatever the
session state: it returns no event and leaves the device unchanged.  The
`session_start` branch for `old = list` with no active session exists in
`_handle_state_transition` but is unreachable from `update_state`,
because `start` is not among the allowed successors of `list` in
`VALID_TRANSITIONS`. -/
theorem c5_list_start_rejected (d : DeviceState) (c t : Rat) (f : String)
    (h : d.current_state = "list") :
    update_state d "start" c t f = (d, none) := by
  apply update_invalid
  · rw [h]; decide
  · rw [h]; decide

/-- C5 witness: the rejection at a concrete `list` device. -/
theorem c5_list_start_rejected_witness :
    update_state listDevice "start" 1 5 "fresh-id" = (listDevice, none) :=
  c5_list_start_rejected listDevice 1 5 "fresh-id" rfl

/-- Anchoring a pending confirmation only touches the pending fields. -/
@[simp] theorem pendingAnchor_current (d : DeviceState) (ds : String) (t : Rat) :
    (pendingAnchor d ds t).current_state = d.current_state := rfl

@[simp] theorem pendingAnchor_session_id (d : DeviceState) (ds : String) (t : Rat) :
    (pendingAnchor d ds t).session_id = d.session_id := rfl

@[simp] theorem pendingAnchor_session_start (d : DeviceState) (ds : String) (t : Rat) :
    (pendingAnchor d ds t).session_start = d.session_start := rfl

@[simp] theorem pendingAnchor_scan_count (d : DeviceState) (ds : String) (t : Rat) :
    (pendingAnchor d ds t).scan_count = d.scan_count := rfl

@[simp] theorem pendingAnchor_state_history (d : DeviceState) (ds : String) (t : Rat) :
    (pendingAnchor d ds t).state_history = d.state_history := rfl

@[simp] theorem pendingAnchor_last_update (d : DeviceState) (ds : String) (t : Rat) :
    (pendingAnchor d ds t).last_update = d.last_update := rfl

@[simp] theorem pendingAnchor_pending_state (d : DeviceState) (ds : String) (t : Rat) :
    (pendingAnchor d ds t).pending_state = some ds := rfl

@[simp] theorem pendingAnchor_pending_count (d : DeviceState) (ds : String) (t : Rat) :
    (pendingAnchor d ds t).pending_count = 1 := rfl

@[simp] theorem pendingAnchor_pending_timestamps (d : DeviceState) (ds : String) (t : Rat) :
    (pendingAnchor d ds t).pending_timestamps = [t] := rfl

/-- Extending a pending confirmation only touches count and timestamps. -/
@[simp] theorem pendingExtend_current (d : DeviceState) (t : Rat) :
    (pendingExtend d t).current_state = d.current_state := rfl

@[simp] theorem pendingExtend_session_id (d : DeviceState) (t : Rat) :
    (pendingExtend d t).session_id = d.session_id := rfl

@[simp] theorem pendingExtend_session_start (d : DeviceState) (t : Rat) :
    (pendingExtend d t).session_start = d.session_start := rfl

@[simp] theorem pendingExtend_scan_count (d : DeviceState) (t : Rat) :
    (pendingExtend d t).scan_count = d.scan_count := rfl

@[simp] theorem pendingExtend_state_history (d : DeviceState) (t : Rat) :
    (pendingExtend d t).state_history = d.state_history := rfl

@[simp] theorem pendingExtend_last_update (d : DeviceState) (t : Rat) :
    (pendingExtend d t).last_update = d.last_update := rfl

@[simp] theorem pendingExtend_pending_state (d : DeviceState) (t : Rat) :
    (pendingExtend d t).pending_state = d.pending_state := rfl

@[simp] theorem pendingExtend_pending_count (d : DeviceState) (t : Rat) :
    (pendingExtend d t).pending_count = d.pending_count + 1 := rfl

@[simp] theorem pendingExtend_pending_timestamps (d : DeviceState) (t : Rat) :
    (pendingExtend d t).pending_timestamps = d.pending_timestamps ++ [t] := rfl

@[simp] theorem pendingExtend_id (d : DeviceState) (t : Rat) :
    (pendingExtend d t).id = d.id := rfl

@[simp] theorem pendingAnchor_id (d : DeviceState) (ds : String) (t : Rat) :
    (pendingAnchor d ds t).id = d.id := rfl

@[simp] theorem commitTo_id (d : DeviceState) (det : String) (t : Rat) :
    (commitTo d det t).id = d.id := rfl

@[simp] theorem reset_id (d : DeviceState) :
    d.reset.id = d.id := rfl

@[simp] theorem clearPending_id (d : DeviceState) :
    (clearPending d).id = d.id := rfl

/-- C1: from state `scan` with an active session and no open pending
confirmation, four consecutive `idle` detections leave the state at
`scan` with no event, and a fifth whose timestamp is within
`CONFIRMATION_TIME_WINDOW` of the first pending timestamp commits to
`idle` and returns a `session_end` event with end type `abandoned`. -/
theorem c1_debounce_threshold
    (d : DeviceState) (s : String)
    (d1 d2 d3 d4 d5 : DeviceState) (e1 e2 e3 e4 e5 : Option StateEvent)
    (c1 c2 c3 c4 c5 t1 t2 t3 t4 t5 : Rat) (f1 f2 f3 f4 f5 : String)
    (hcur : d.current_state = "scan") (hsid : d.session_id = some s) (hs : s ≠ "")
    (hpend : d.pending_state = none)
    (hwin : t5 - t1 ≤ CONFIRMATION_TIME_WINDOW)
    (h1 : update_state d "idle" c1 t1 f1 = (d1, e1))
    (h2 : update_state d1 "idle" c2 t2 f2 = (d2, e2))
    (h3 : update_state d2 "idle" c3 t3 f3 = (d3, e3))
    (h4 : update_state d3 "idle" c4 t4 f4 = (d4, e4))
    (h5 : update_state d4 "idle" c5 t5 f5 = (d5, e5)) :
    e1 = none ∧ e2 = none ∧ e3 = none ∧ e4 = none ∧
    d1.current_state = "scan" ∧ d2.current_state = "scan" ∧
    d3.current_state = "scan" ∧ d4.current_state = "scan" ∧
    d5.current_state = "idle" ∧
    ∃ ev, e5 = some ev ∧ ev.event_type = "session_end" ∧
      ev.details_end_type = some "abandoned" := by
  rw [update_idle_newPending d c1 t1 f1 (by rw [hcur]; decide) (by rw [hcur]; decide)
    (by rw [hcur]; decide) (by rw [hpend]; simp)] at h1
  rw [Prod.mk.injEq] at h1
  obtain ⟨rfl, rfl⟩ := h1
  rw [update_idle_accum _ c2 t2 f2 (by simp only [pendingAnchor_current, hcur]; decide)
    (by simp only [pendingAnchor_current, hcur]; decide)
    (by simp only [pendingAnchor_current, hcur]; decide)
    (by simp) (by simp [IDLE_CONFIRMATION_COUNT])] at h2
  rw [Prod.mk.injEq] at h2
  obtain ⟨rfl, rfl⟩ := h2
  rw [update_idle_accum _ c3 t3 f3
    (by simp only [pendingExtend_current, pendingAnchor_current, hcur]; decide)
    (by simp only [pendingExtend_current, pendingAnchor_current, hcur]; decide)
    (by simp only [pendingExtend_current, pendingAnchor_current, hcur]; decide)
    (by simp) (by simp [IDLE_CONFIRMATION_COUNT])] at h3
  rw [Prod.mk.injEq] at h3
  obtain ⟨rfl, rfl⟩ := h3
  rw [update_idle_accum _ c4 t4 f4
    (by simp only [pendingExtend_current, pendingAnchor_current, hcur]; decide)
    (by simp only [pendingExtend_current, pendingAnchor_current, hcur]; decide)
    (by simp only [pendingExtend_current, pendingAnchor_current, hcur]; decide)
    (by simp) (by simp [IDLE_CONFIRMATION_COUNT])] at h4
  rw [Prod.mk.injEq] at h4
  obtain ⟨rfl, rfl⟩ := h4
  rw [update_idle_commit _ c5 t5 f5
    (by simp only [pendingExtend_current, pendingAnchor_current, hcur]; decide)
    (by simp only [pendingExtend_current, pendingAnchor_current, hcur]; decide)
    (by simp only [pendingExtend_current, pendingAnchor_current, hcur]; decide)
    (by simp) (by simp [IDLE_CONFIRMATION_COUNT]) (by simpa using hwin)] at h5
  rw [show (pendingExtend (pendingExtend (pendingExtend (pendingAnchor d "idle" t1) t2) t3)
      t4).current_state = "scan" from by simp [hcur]] at h5
  rw [handler_idle_end _ "scan" t5 f5 s (Or.inr (Or.inl rfl)) (by simp [hsid]) hs] at h5
  rw [Prod.mk.injEq] at h5
  obtain ⟨rfl, rfl⟩ := h5
  refine ⟨rfl, rfl, rfl, rfl, by simp [hcur], by simp [hcur], by simp [hcur], by simp [hcur],
    by simp, ⟨_, rfl, rfl, rfl⟩⟩

/-- C2: from any state in which an idle detection needs confirmation
(`start`, `scan` or `list`) with no open pending confirmation, five
`idle` detections whose fifth timestamp exceeds the first pending
timestamp by more than `CONFIRMATION_TIME_WINDOW` never commit and
return no event; after the fifth call the pending confirmation holds
count 1 with the fifth timestamp as its only record. -/
theorem c2_window_reset
    (d : DeviceState)
    (d1 d2 d3 d4 d5 : DeviceState) (e1 e2 e3 e4 e5 : Option StateEvent)
    (c1 c2 c3 c4 c5 t1 t2 t3 t4 t5 : Rat) (f1 f2 f3 f4 f5 : String)
    (hcur : d.current_state = "start" ∨ d.current_state = "scan" ∨ d.current_state = "list")
    (hpend : d.pending_state = none)
    (hwin : CONFIRMATION_TIME_WINDOW < t5 - t1)
    (h1 : update_state d "idle" c1 t1 f1 = (d1, e1))
    (h2 : update_state d1 "idle" c2 t2 f2 = (d2, e2))
    (h3 : update_state d2 "idle" c3 t3 f3 = (d3, e3))
    (h4 : update_state d3 "idle" c4 t4 f4 = (d4, e4))
    (h5 : update_state d4 "idle" c5 t5 f5 = (d5, e5)) :
    e1 = none ∧ e2 = none ∧ e3 = none ∧ e4 = none ∧ e5 = none ∧
    d1.current_state = d.current_state ∧ d2.current_state = d.current_state ∧
    d3.current_state = d.current_state ∧ d4.current_state = d.current_state ∧
    d5.current_state = d.current_state ∧
    d5.pending_state = some "idle" ∧ d5.pending_count = 1 ∧
    d5.pending_timestamps = [t5] := by
  rw [update_idle_newPending d c1 t1 f1
    (by rcases hcur with h | h | h <;> rw [h] <;> decide)
    (by rcases hcur with h | h | h <;> rw [h] <;> decide)
    (by rcases hcur with h | h | h <;> rw [h] <;> decide)
    (by rw [hpend]; simp)] at h1
  rw [Prod.mk.injEq] at h1
  obtain ⟨rfl, rfl⟩ := h1
  rw [update_idle_accum _ c2 t2 f2
    (by rcases hcur with h | h | h <;> simp only [pendingAnchor_current, h] <;> decide)
    (by rcases hcur with h | h | h <;> simp only [pendingAnchor_current, h] <;> decide)
    (by rcases hcur with h | h | h <;> simp only [pendingAnchor_current, h] <;> decide)
    (by simp) (by simp [IDLE_CONFIRMATION_COUNT])] at h2
  rw [Prod.mk.injEq] at h2
  obtain ⟨rfl, rfl⟩ := h2
  rw [update_idle_accum _ c3 t3 f3
    (by rcases hcur with h | h | h <;>
      simp only [pendingExtend_current, pendingAnchor_current, h] <;> decide)
    (by rcases hcur with h | h | h <;>
      simp only [pendingExtend_current, pendingAnchor_current, h] <;> decide)
    (by rcases hcur with h | h | h <;>
      simp only [pendingExtend_current, pendingAnchor_current, h] <;> decide)
    (by simp) (by simp [IDLE_CONFIRMATION_COUNT])] at h3
  rw [Prod.mk.injEq] at h3
  obtain ⟨rfl, rfl⟩ := h3
  rw [update_idle_accum _ c4 t4 f4
    (by rcases hcur with h | h | h <;>
      simp only [pendingExtend_current, pendingAnchor_current, h] <;> decide)
    (by rcases hcur with h | h | h <;>
      simp only [pendingExtend_current, pendingAnchor_current, h] <;> decide)
    (by rcases hcur with h | h | h <;>
      simp only [pendingExtend_current, pendingAnchor_current, h] <;> decide)
    (by simp) (by simp [IDLE_CONFIRMATION_COUNT])] at h4
  rw [Prod.mk.injEq] at h4
  obtain ⟨rfl, rfl⟩ := h4
  rw [update_idle_resetWindow _ c5 t5 f5
    (by rcases hcur with h | h | h <;>
      simp only [pendingExtend_current, pendingAnchor_current, h] <;> decide)
    (by rcases hcur with h | h | h <;>
      simp only [pendingExtend_current, pendingAnchor_current, h] <;> decide)
    (by rcases hcur with h | h | h <;>
      simp only [pendingExtend_current, pendingAnchor_current, h] <;> decide)
    (by simp) (by simp [IDLE_CONFIRMATION_COUNT])
    (by simpa using not_le.mpr hwin)] at h5
  rw [Prod.mk.injEq] at h5
  obtain ⟨rfl, rfl⟩ := h5
  refine ⟨rfl, rfl, rfl, rfl, rfl, by simp, by simp, by simp, by simp, by simp,
    by simp, by simp, by simp⟩

/-- C3: the full lifecycle `idle→start→scan→list→scan→over→idle` with
strictly increasing timestamps yields exactly `session_start`,
`product_scan` number 1, `view_list`, `product_scan` number 2,
`session_end` completed with two total scans, and no event for the final
`over → idle` step.  The fresh session id drawn at the `session_start`
commit is non-empty, as `uuid.uuid4()` strings always are. -/
theorem c3_full_lifecycle
    (d : DeviceState)
    (d1 d2 d3 d4 d5 d6 : DeviceState) (e1 e2 e3 e4 e5 e6 : Option StateEvent)
    (c1 c2 c3 c4 c5 c6 t1 t2 t3 t4 t5 t6 : Rat) (f1 f2 f3 f4 f5 f6 : String)
    (hcur : d.current_state = "idle") (hf1 : f1 ≠ "")
    (hts : t1 < t2 ∧ t2 < t3 ∧ t3 < t4 ∧ t4 < t5 ∧ t5 < t6)
    (h1 : update_state d "start" c1 t1 f1 = (d1, e1))
    (h2 : update_state d1 "scan" c2 t2 f2 = (d2, e2))
    (h3 : update_state d2 "list" c3 t3 f3 = (d3, e3))
    (h4 : update_state d3 "scan" c4 t4 f4 = (d4, e4))
    (h5 : update_state d4 "over" c5 t5 f5 = (d5, e5))
    (h6 : update_state d5 "idle" c6 t6 f6 = (d6, e6)) :
    (∃ a, e1 = some a ∧ a.event_type = "session_start") ∧
    (∃ a, e2 = some a ∧ a.event_type = "product_scan" ∧ a.details_scan_number = some 1) ∧
    (∃ a, e3 = some a ∧ a.event_type = "view_list") ∧
    (∃ a, e4 = some a ∧ a.event_type = "product_scan" ∧ a.details_scan_number = some 2) ∧
    (∃ a, e5 = some a ∧ a.event_type = "session_end" ∧ a.details_end_type = some "completed" ∧
      a.details_total_scans = some 2) ∧
    e6 = none ∧ d6.current_state = "idle" := by
  have s1 := update_commit_direct d "start" c1 t1 f1 (by rw [hcur]; decide)
    (by rw [hcur]; decide) (by simp)
  rw [hcur, handler_idle_start] at s1
  rw [s1, Prod.mk.injEq] at h1
  obtain ⟨hd1, he1⟩ := h1
  have hd1c : d1.current_state = "start" := by rw [← hd1]; simp
  have hd1sid : d1.session_id = some f1 := by rw [← hd1]
  have hd1sc : d1.scan_count = 0 := by rw [← hd1]
  have s2 := update_commit_direct d1 "scan" c2 t2 f2 (by rw [hd1c]; decide)
    (by rw [hd1c]; decide) (by simp)
  rw [hd1c, handler_to_scan _ _ _ _ (by decide)] at s2
  rw [s2, Prod.mk.injEq] at h2
  obtain ⟨hd2, he2⟩ := h2
  have hd2c : d2.current_state = "scan" := by rw [← hd2]; simp
  have hd2sid : d2.session_id = some f1 := by rw [← hd2]; simp [hd1sid]
  have hd2sc : d2.scan_count = 1 := by rw [← hd2]; simp [hd1sc]
  have s3 := update_commit_direct d2 "list" c3 t3 f3 (by rw [hd2c]; decide)
    (by rw [hd2c]; decide) (by simp)
  rw [hd2c, handler_scan_list] at s3
  rw [s3, Prod.mk.injEq] at h3
  obtain ⟨hd3, he3⟩ := h3
  have hd3c : d3.current_state = "list" := by rw [← hd3]; simp
  have hd3sid : d3.session_id = some f1 := by rw [← hd3]; simp [hd2sid]
  have hd3sc : d3.scan_count = 1 := by rw [← hd3]; simp [hd2sc]
  have s4 := update_commit_direct d3 "scan" c4 t4 f4 (by rw [hd3c]; decide)
    (by rw [hd3c]; decide) (by simp)
  rw [hd3c, handler_to_scan _ _ _ _ (by decide)] at s4
  rw [s4, Prod.mk.injEq] at h4
  obtain ⟨hd4, he4⟩ := h4
  have hd4c : d4.current_state = "scan" := by rw [← hd4]; simp
  have hd4sid : d4.session_id = some f1 := by rw [← hd4]; simp [hd3sid]
  have hd4sc : d4.scan_count = 2 := by rw [← hd4]; simp [hd3sc]
  have s5 := update_commit_direct d4 "over" c5 t5 f5 (by rw [hd4c]; decide)
    (by rw [hd4c]; decide) (by simp)
  rw [hd4c, handler_over_end _ "scan" t5 f5 f1 (Or.inl rfl)
    (by rw [commitTo_session_id]; exact hd4sid) hf1] at s5
  rw [s5, Prod.mk.injEq] at h5
  obtain ⟨hd5, he5⟩ := h5
  have hd5c : d5.current_state = "over" := by rw [← hd5]; simp
  have s6 := update_commit_direct d5 "idle" c6 t6 f6 (by rw [hd5c]; decide)
    (by rw [hd5c]; decide) (by simp [hd5c])
  rw [hd5c, handler_over_idle] at s6
  rw [s6, Prod.mk.injEq] at h6
  obtain ⟨hd6, he6⟩ := h6
  refine ⟨⟨_, he1.symm, rfl⟩, ⟨_, he2.symm, rfl, by simp [hd1sc]⟩, ⟨_, he3.symm, rfl⟩,
    ⟨_, he4.symm, rfl, by simp [hd3sc]⟩, ⟨_, he5.symm, rfl, rfl, by simp [hd4sc]⟩,
    he6.symm, by rw [← hd6]; simp⟩

/-- Session reset clears the session id. -/
@[simp] theorem reset_session_id (d : DeviceState) :
    d.reset.session_id = none := rfl

/-- Session reset clears the scan counter. -/
@[simp] theorem reset_scan_count (d : DeviceState) :
    d.reset.scan_count = 0 := rfl

/-- Clearing a pending confirmation leaves the session id untouched. -/
@[simp] theorem clearPending_session_id (d : DeviceState) :
    (clearPending d).session_id = d.session_id := rfl

/-- C7: when a committed transition has the session-end shape (`over`
from `scan` or `list`, or a confirmed `idle` from `start`, `scan` or
`list`) but the session id is `None`, `update_state` returns no event,
yet the commit itself has already been applied: `current_state` holds
the new state, `last_update` is stamped with the call timestamp, and the
(timestamp, state) pair is appended to the history (stated below the
history cap); only the event and the session-field reset are
suppressed. -/
theorem c7_session_end_guard
    (d : DeviceState) (c t : Rat) (f : String)
    (hsid : d.session_id = none) (hl : d.state_history.length ≤ 999) :
    ((d.current_state = "scan" ∨ d.current_state = "list") →
      update_state d "over" c t f =
        ({ d with
           current_state := "over"
           last_update := some t
           state_history := d.state_history ++ [(t, "over")]
           pending_state := none
           pending_count := 0
           pending_timestamps := [] }, none)) ∧
    ((d.current_state = "start" ∨ d.current_state = "scan" ∨ d.current_state = "list") →
      d.pending_state = some "idle" →
      IDLE_CONFIRMATION_COUNT ≤ d.pending_count + 1 →
      t - (d.pending_timestamps ++ [t]).headD 0 ≤ CONFIRMATION_TIME_WINDOW →
      update_state d "idle" c t f =
        ({ d with
           current_state := "idle"
           last_update := some t
           state_history := d.state_history ++ [(t, "idle")]
           pending_state := none
           pending_count := 0
           pending_timestamps := [] }, none)) := by
  constructor
  · intro hcur
    rw [update_commit_direct d "over" c t f
      (by rcases hcur with h | h <;> rw [h] <;> decide)
      (by rcases hcur with h | h <;> rw [h] <;> decide) (by simp)]
    rcases hcur with h | h <;> rw [h]
    · rw [handler_over_end_nosid _ "scan" t f (Or.inl rfl)
        (by rw [commitTo_session_id]; exact hsid)]
      rw [commitTo_eq_of_small d "over" t hl]
    · rw [handler_over_end_nosid _ "list" t f (Or.inr rfl)
        (by rw [commitTo_session_id]; exact hsid)]
      rw [commitTo_eq_of_small d "over" t hl]
  · intro hcur hp hc hw
    rw [update_idle_commit d c t f
      (by rcases hcur with h | h | h <;> rw [h] <;> decide)
      (by rcases hcur with h | h | h <;> rw [h] <;> decide)
      (by rcases hcur with h | h | h <;> rw [h] <;> decide) hp hc hw]
    rw [handler_idle_end_nosid _ d.current_state t f hcur
      (by rw [commitTo_session_id]; simpa using hsid)]
    rw [commitTo_eq_of_small (pendingExtend d t) "idle" t (by simpa using hl)]
    simp

/-- C7 witness: the guard at a `scan → over` commit and at a confirmed
idle commit, both on devices with no session id. -/
theorem c7_session_end_guard_witness :
    (update_state overGuardDevice "over" 1 7 "f" =
      ({ overGuardDevice with
         current_state := "over"
         last_update := some 7
         state_history := overGuardDevice.state_history ++ [(7, "over")]
         pending_state := none
         pending_count := 0
         pending_timestamps := [] }, none)) ∧
    (update_state idleGuardDevice "idle" 1 4 "f" =
      ({ idleGuardDevice with
         current_state := "idle"
         last_update := some 4
         state_history := idleGuardDevice.state_history ++ [(4, "idle")]
         pending_state := none
         pending_count := 0
         pending_timestamps := [] }, none)) :=
  ⟨(c7_session_end_guard overGuardDevice 1 7 "f" rfl (by decide)).1 (Or.inl rfl),
   (c7_session_end_guard idleGuardDevice 1 4 "f" rfl (by decide)).2 (Or.inr (Or.inl rfl))
     rfl (by decide) (by norm_num [idleGuardDevice, CONFIRMATION_TIME_WINDOW])⟩

/-- Idle detections from a confirmation-needing state preserve the
session-activity invariant, whatever the pending state. -/
theorem update_idle_confirm_preserves (d : DeviceState) (c t : Rat) (f : String)
    (hX : d.current_state = "start" ∨ d.current_state = "scan" ∨ d.current_state = "list")
    (h : sessionInv d) :
    sessionInv (update_state d "idle" c t f).fst := by
  have hne : d.current_state ≠ "idle" := by rcases hX with h' | h' | h' <;> rw [h'] <;> decide
  have hv : is_valid_transition d.current_state "idle" = true := by
    rcases hX with h' | h' | h' <;> rw [h'] <;> decide
  have hno : d.current_state ≠ "over" := by rcases hX with h' | h' | h' <;> rw [h'] <;> decide
  by_cases hp : d.pending_state = some "idle"
  · by_cases hc : d.pending_count + 1 ≥ IDLE_CONFIRMATION_COUNT
    · by_cases hw : t - (d.pending_timestamps ++ [t]).headD 0 ≤ CONFIRMATION_TIME_WINDOW
      · rw [update_idle_commit d c t f hne hv hno hp hc hw]
        obtain ⟨hiff, hnemp⟩ := h
        have hS : d.session_id.isSome = true := hiff.mpr hX
        obtain ⟨s, hs⟩ := Option.isSome_iff_exists.mp hS
        have hsne : s ≠ "" := by rintro rfl; exact hnemp hs
        rw [handler_idle_end _ d.current_state t f s hX (by simp [hs]) hsne]
        exact ⟨by simp, by simp⟩
      · rw [update_idle_resetWindow d c t f hne hv hno hp hc hw]
        exact ⟨by simpa using h.1, by simpa using h.2⟩
    · rw [update_idle_accum d c t f hne hv hno hp (by omega)]
      exact ⟨by simpa using h.1, by simpa using h.2⟩
  · rw [update_idle_newPending d c t f hne hv hno hp]
    exact ⟨by simpa using h.1, by simpa using h.2⟩

/-- One `update_state` call preserves the session-activity invariant of
the device it acts on, provided the fresh session id is non-empty. -/
theorem update_preserves_sessionInv (d : DeviceState) (det : String) (c t : Rat) (f : String)
    (hf : f ≠ "") (h : sessionInv d) :
    sessionInv (update_state d det c t f).fst := by
  by_cases h1 : d.current_state = det
  · rw [update_same' d det c t f h1]
    dsimp only
    split
    · exact ⟨by simpa using h.1, by simpa using h.2⟩
    · exact h
  · by_cases h2 : is_valid_transition d.current_state det = true
    · rcases valid_inversion _ _ h2 with ⟨ha, hb⟩ | ⟨ha, hb | hb⟩ | ⟨ha, hb | hb | hb⟩ |
        ⟨ha, hb | hb | hb⟩ | ⟨ha, hb⟩ <;> subst hb
      · -- idle → start
        rw [update_commit_direct d "start" c t f h1 h2 (by simp)]
        rw [ha, handler_idle_start]
        exact ⟨by simp, by simp [hf]⟩
      · -- start → scan
        rw [update_commit_direct d "scan" c t f h1 h2 (by simp)]
        rw [ha, handler_to_scan _ _ _ _ (by decide)]
        have hS : d.session_id.isSome = true := h.1.mpr (Or.inl ha)
        exact ⟨by simp [hS], by simpa using h.2⟩
      · -- start → idle (confirmation)
        exact update_idle_confirm_preserves d c t f (Or.inl ha) h
      · -- scan → list
        rw [update_commit_direct d "list" c t f h1 h2 (by simp)]
        rw [ha, handler_scan_list]
        have hS : d.session_id.isSome = true := h.1.mpr (Or.inr (Or.inl ha))
        exact ⟨by simp [hS], by simpa using h.2⟩
      · -- scan → over
        rw [update_commit_direct d "over" c t f h1 h2 (by simp)]
        have hS : d.session_id.isSome = true := h.1.mpr (Or.inr (Or.inl ha))
        obtain ⟨s, hs⟩ := Option.isSome_iff_exists.mp hS
        have hsne : s ≠ "" := by rintro rfl; exact h.2 hs
        rw [ha, handler_over_end _ "scan" t f s (Or.inl rfl) (by simp [hs]) hsne]
        exact ⟨by simp, by simp⟩
      · -- scan → idle (confirmation)
        exact update_idle_confirm_preserves d c t f (Or.inr (Or.inl ha)) h
      · -- list → scan
        rw [update_commit_direct d "scan" c t f h1 h2 (by simp)]
        rw [ha, handler_to_scan _ _ _ _ (by decide)]
        have hS : d.session_id.isSome = true := h.1.mpr (Or.inr (Or.inr ha))
        exact ⟨by simp [hS], by simpa using h.2⟩
      · -- list → over
        rw [update_commit_direct d "over" c t f h1 h2 (by simp)]
        have hS : d.session_id.isSome = true := h.1.mpr (Or.inr (Or.inr ha))
        obtain ⟨s, hs⟩ := Option.isSome_iff_exists.mp hS
        have hsne : s ≠ "" := by rintro rfl; exact h.2 hs
        rw [ha, handler_over_end _ "list" t f s (Or.inr rfl) (by simp [hs]) hsne]
        exact ⟨by simp, by simp⟩
      · -- list → idle (confirmation)
        exact update_idle_confirm_preserves d c t f (Or.inr (Or.inr ha)) h
      · -- over → idle
        rw [update_commit_direct d "idle" c t f h1 h2 (by simp [ha])]
        rw [ha, handler_over_idle]
        have hnone : d.session_id = none := by
          cases hsi : d.session_id with
          | none => rfl
          | some s =>
            exfalso
            have hmem := h.1.mp (by rw [hsi]; rfl)
            rw [ha] at hmem
            rcases hmem with h' | h' | h' <;> simp at h'
        exact ⟨by simp [hnone], by simp [hnone]⟩
    · rw [update_invalid d det c t f h1 (by simpa using h2)]
      exact h

/-- A record taken or created by the manager for a device id satisfies
the invariant when every stored record does. -/
theorem lookup_device_inv (l : List (String × DeviceState)) (k : String)
    (hl : ∀ p ∈ l, sessionInv p.2) :
    sessionInv ((lookup_device l k).getD (init_device k)) := by
  induction l with
  | nil =>
    simp only [lookup_device, Option.getD_none]
    exact ⟨by simp [init_device]; decide, by simp [init_device]⟩
  | cons a l ih =>
    obtain ⟨k', d'⟩ := a
    by_cases hk : k' = k
    · simp only [lookup_device, if_pos hk, Option.getD_some]
      exact hl (k', d') (List.mem_cons_self _ _)
    · simp only [lookup_device, if_neg hk]
      exact ih (fun p hp => hl p (List.mem_cons_of_mem _ hp))

/-- Storing a record keeps every registry entry either untouched or equal
to the stored record. -/
theorem store_device_mem (l : List (String × DeviceState)) (k : String) (x : DeviceState)
    (p : String × DeviceState) (hp : p ∈ store_device l k x) :
    p ∈ l ∨ p.2 = x := by
  induction l with
  | nil =>
    simp only [store_device, List.mem_singleton] at hp
    right
    rw [hp]
  | cons a l ih =>
    obtain ⟨k', d'⟩ := a
    by_cases hk : k' = k
    · simp only [store_device, if_pos hk, List.mem_cons] at hp
      rcases hp with hp | hp
      · right; rw [hp]
      · left; exact List.mem_cons_of_mem _ hp
    · simp only [store_device, if_neg hk, List.mem_cons] at hp
      rcases hp with hp | hp
      · left; rw [hp]; exact List.mem_cons_self _ _
      · rcases ih hp with h' | h'
        · left; exact List.mem_cons_of_mem _ h'
        · right; exact h'

/-- C6: after every manager-level `update_state` call, each device record
in the registry satisfies the session-activity invariant: `session_id`
is non-`None` exactly when `current_state` is one of `start`, `scan`,
`list`.  The invariant is preserved from call to call provided the fresh
session id drawn on a `session_start` is non-empty, as `uuid.uuid4()`
strings always are. -/
theorem c6_session_invariant (m : DeviceStateManager) (device_id det : String) (c t : Rat)
    (f : String) (hf : f ≠ "") (hm : managerInv m) :
    managerInv (manager_update_state m device_id det c t f).fst := by
  unfold managerInv at hm ⊢
  unfold manager_update_state
  dsimp only
  intro p hp
  rcases store_device_mem _ _ _ p hp with hmem | heq
  · exact hm p hmem
  · rw [heq]
    exact update_preserves_sessionInv _ det c t f hf (lookup_device_inv m.devices device_id hm)

/-- C6 witness: the invariant after a first call on an empty registry. -/
theorem c6_session_invariant_witness :
    managerInv (manager_update_state ⟨[]⟩ "dev" "start" 1 1 "sid-1").fst :=
  c6_session_invariant ⟨[]⟩ "dev" "start" 1 1 "sid-1" (by decide)
    (by intro p hp; exact absurd hp (List.not_mem_nil p))

/-- C1 witness: the debounce run at concrete inputs. -/
theorem c1_debounce_threshold_witness :
    c1r1.snd = none ∧ c1r2.snd = none ∧ c1r3.snd = none ∧ c1r4.snd = none ∧
    c1r1.fst.current_state = "scan" ∧ c1r2.fst.current_state = "scan" ∧
    c1r3.fst.current_state = "scan" ∧ c1r4.fst.current_state = "scan" ∧
    c1r5.fst.current_state = "idle" ∧
    ∃ ev, c1r5.snd = some ev ∧ ev.event_type = "session_end" ∧
      ev.details_end_type = some "abandoned" :=
  c1_debounce_threshold scanSessionDevice "sess"
    c1r1.fst c1r2.fst c1r3.fst c1r4.fst c1r5.fst
    c1r1.snd c1r2.snd c1r3.snd c1r4.snd c1r5.snd
    1 1 1 1 1 0 1 1 2 3 "f" "f" "f" "f" "f"
    rfl rfl (by decide) rfl (by norm_num [CONFIRMATION_TIME_WINDOW])
    rfl rfl rfl rfl rfl

/-- C2 witness: the window-reset run at concrete inputs. -/
theorem c2_window_reset_witness :
    c2r1.snd = none ∧ c2r2.snd = none ∧ c2r3.snd = none ∧ c2r4.snd = none ∧
    c2r5.snd = none ∧
    c2r1.fst.current_state = scanSessionDevice.current_state ∧
    c2r2.fst.current_state = scanSessionDevice.current_state ∧
    c2r3.fst.current_state = scanSessionDevice.current_state ∧
    c2r4.fst.current_state = scanSessionDevice.current_state ∧
    c2r5.fst.current_state = scanSessionDevice.current_state ∧
    c2r5.fst.pending_state = some "idle" ∧ c2r5.fst.pending_count = 1 ∧
    c2r5.fst.pending_timestamps = [4] :=
  c2_window_reset scanSessionDevice
    c2r1.fst c2r2.fst c2r3.fst c2r4.fst c2r5.fst
    c2r1.snd c2r2.snd c2r3.snd c2r4.snd c2r5.snd
    1 1 1 1 1 0 1 2 3 4 "f" "f" "f" "f" "f"
    (Or.inr (Or.inl rfl)) rfl (by norm_num [CONFIRMATION_TIME_WINDOW])
    rfl rfl rfl rfl rfl

/-- C3 witness: the full lifecycle at concrete inputs. -/
theorem c3_full_lifecycle_witness :
    (∃ a, c3r1.snd = some a ∧ a.event_type = "session_start") ∧
    (∃ a, c3r2.snd = some a ∧ a.event_type = "product_scan" ∧
      a.details_scan_number = some 1) ∧
    (∃ a, c3r3.snd = some a ∧ a.event_type = "view_list") ∧
    (∃ a, c3r4.snd = some a ∧ a.event_type = "product_scan" ∧
      a.details_scan_number = some 2) ∧
    (∃ a, c3r5.snd = some a ∧ a.event_type = "session_end" ∧
      a.details_end_type = some "completed" ∧ a.details_total_scans = some 2) ∧
    c3r6.snd = none ∧ c3r6.fst.current_state = "idle" :=
  c3_full_lifecycle freshDevice
    c3r1.fst c3r2.fst c3r3.fst c3r4.fst c3r5.fst c3r6.fst
    c3r1.snd c3r2.snd c3r3.snd c3r4.snd c3r5.snd c3r6.snd
    1 1 1 1 1 1 1 2 3 4 5 6 "sid-1" "sid-2" "sid-3" "sid-4" "sid-5" "sid-6"
    rfl (by decide) (by norm_num)
    rfl rfl rfl rfl rfl rfl
